import Mathlib

/-!
Shallow embedding of the shelf-weight event-detection engine
(`models/__init__.py`, `shelf_manager.py`, `bnb/old_shelf_manager.py`).

Weights and prices are modelled as rationals (`ℚ`); Python exceptions are
modelled with `Except PyErr`; mutation is modelled by explicit state passing.
-/

namespace BnB

/-- Python exceptions that the modelled code can raise. -/
inductive PyErr where
  | indexError
  | typeError
  | valueError
  | zeroDivisionError
deriving Repr, DecidableEq

/-! ### Python numeric primitives -/

/-- Python `x % y` for `y ≠ 0`: the result takes the sign of the divisor,
`x % y = x - y * floor(x / y)`.  (`y = 0` raises `ZeroDivisionError` in
Python; callers model that case separately.) -/
def pymod (x y : ℚ) : ℚ := x - y * ⌊x / y⌋

/-- Python `round(x)` to an integer: round half to even (banker's rounding). -/
def pyround (x : ℚ) : ℤ :=
  let f : ℤ := ⌊x⌋
  let r : ℚ := x - f
  if r < 1 / 2 then f
  else if 1 / 2 < r then f + 1
  else if f % 2 = 0 then f else f + 1

/-- Insert into a sorted list (ascending). -/
def insertSorted (x : ℚ) : List ℚ → List ℚ
  | [] => [x]
  | y :: ys => if x ≤ y then x :: y :: ys else y :: insertSorted x ys

/-- Sort ascending, as Python `sorted` does for the median. -/
def pysort : List ℚ → List ℚ
  | [] => []
  | x :: xs => insertSorted x (pysort xs)

/-- Python `statistics.median`: sort, take the middle element for odd length,
the mean of the two middle elements for even length.  (Empty input raises in
Python; the modelled code only calls this on the fixed-length weight store.) -/
def pymedian (l : List ℚ) : ℚ :=
  let s := pysort l
  let n := s.length
  if n % 2 = 1 then s.getD (n / 2) 0
  else (s.getD (n / 2 - 1) 0 + s.getD (n / 2) 0) / 2

/-! ### Data model: `Item` (`models/__init__.py`) -/

/-- `Item` from `models/__init__.py`. -/
structure Item where
  itemId : ℕ
  name : String
  upc : String
  price : ℚ
  units : ℕ
  avgWeight : ℚ
  stdWeight : ℚ
  thumbnailUrl : String
  visionClass : String
deriving Repr, DecidableEq

/-- `Item.__eq__` compares only `item_id`; dictionary keys use this equality. -/
instance : BEq Item := ⟨fun a b => a.itemId == b.itemId⟩

/-! ### Module constants (`models/__init__.py`) -/

def CERTAINTY_CONSTANT : ℕ := 2
def ITERS_REQD_NO_UPDATE : ℕ := 0
def EXTRANEOUS_VALUE_LIMIT : ℚ := 5000

/-! ### `Slot` -/

/-- The mutable state of a `Slot` (`models/__init__.py`).
`_last_neg` is initialised to `False` and assigned `abs(quantity)` (an `int`),
so it is modelled as `ℕ`; `_previous_weight_g` may be Python `None`. -/
structure SlotState where
  items : List Item
  previousWeightG : Option ℚ
  conversionFactor : ℚ
  weightStore : List ℚ
  lastPos : Bool
  lastNeg : ℕ
  previousRawWeight : Option ℚ
  iterationsNoUpdate : ℕ
deriving Repr, DecidableEq

namespace Slot

/-- `Slot.__init__(items)`. -/
def init (items : List Item) : SlotState :=
  { items := items
    previousWeightG := none
    conversionFactor := 44 / 100
    weightStore := List.replicate CERTAINTY_CONSTANT 0
    lastPos := false
    lastNeg := 0
    previousRawWeight := some 0
    iterationsNoUpdate := 0 }

/-- `Slot.set_previous_weight`. -/
def setPreviousWeight (s : SlotState) (w : Option ℚ) : SlotState :=
  { s with previousWeightG := w }

/-- `Slot.set_conversion_factor`. -/
def setConversionFactor (s : SlotState) (c : ℚ) : SlotState :=
  { s with conversionFactor := c }

/-- Result of `Slot.calc_conversion_factor`: the state after the call, the
returned factor, and whether the calibration-error message was logged. -/
structure CalibResult where
  state : SlotState
  returned : ℚ
  errorLogged : Bool
deriving Repr, DecidableEq

/-- `Slot.calc_conversion_factor(zero_weight_g, loaded_weight_g, known_weight_g)`:
when the loaded and zero weights coincide the factor is left untouched and an
error is logged, otherwise the factor is set to
`known_weight_g / (loaded_weight_g - zero_weight_g)`; the (possibly new)
factor is returned either way. -/
def calcConversionFactor (s : SlotState)
    (zeroWeightG loadedWeightG knownWeightG : ℚ) : CalibResult :=
  if loadedWeightG = zeroWeightG then
    { state := s, returned := s.conversionFactor, errorLogged := true }
  else
    let s' := { s with
      conversionFactor := knownWeightG / (loadedWeightG - zeroWeightG) }
    { state := s', returned := s'.conversionFactor, errorLogged := false }

/-- `Slot.update(new_weight)`.  Returns the state after the call (in Python,
mutations made before an exception persist on the object) together with
either the returned list of `(item, quantity)` pairs or the raised exception:
* `self.items[0]` raises `IndexError` when the item list is empty;
* `rolling_median - self._previous_weight_g` raises `TypeError` when the
  previous weight was never set (`None`);
* `difference_g % item.avg_weight` raises `ZeroDivisionError` when the
  item's average weight is zero;
* when the difference exceeds `EXTRANEOUS_VALUE_LIMIT` the function returns
  `[]` early, before `_previous_weight_g` is advanced. -/
def update (s : SlotState) (newWeight : ℚ) :
    SlotState × Except PyErr (List (Item × ℤ)) :=
  -- self._previous_raw_weight = new_weight
  let s := { s with previousRawWeight := some newWeight }
  -- item = self.items[0]
  match s.items with
  | [] => (s, .error .indexError)
  | item :: _ =>
    let normalizedWeightG := newWeight * s.conversionFactor
    -- self._weight_store.insert(0, normalized_weight_g);
    -- oldest_weight = self._weight_store.pop()
    let oldestWeight := s.weightStore.getLastD normalizedWeightG
    let s := { s with
      weightStore := (normalizedWeightG :: s.weightStore).dropLast }
    let rollingMedian := pymedian s.weightStore
    match s.previousWeightG with
    | none => (s, .error .typeError)
    | some prev =>
      let differenceG := rollingMedian - prev
      if item.avgWeight = 0 then (s, .error .zeroDivisionError)
      else
        let remainderWeight := |pymod differenceG item.avgWeight|
        if EXTRANEOUS_VALUE_LIMIT < |differenceG| then
          -- early return: `self._previous_weight_g` is NOT advanced
          (s, .ok [])
        else
          let st :=
            if item.avgWeight - item.stdWeight ≤ remainderWeight ∨
                remainderWeight ≤ item.stdWeight then
              let quantity := pyround (differenceG / item.avgWeight)
              if 0 < quantity then
                if s.lastPos = false then
                  ({ s with lastPos := true, lastNeg := 0,
                            iterationsNoUpdate := 0 }, quantity)
                else (s, 0)
              else if quantity < 0 then
                if s.lastNeg = 0 then
                  ({ s with lastNeg := quantity.natAbs, lastPos := false,
                            iterationsNoUpdate := 0 }, quantity)
                else (s, 0)
              else
                if ITERS_REQD_NO_UPDATE ≤ s.iterationsNoUpdate then
                  ({ s with lastPos := false, lastNeg := 0 }, 0)
                else ({ s with
                  iterationsNoUpdate := s.iterationsNoUpdate + 1 }, 0)
            else (s, 0)
          ({ st.1 with previousWeightG := some oldestWeight },
            .ok [(item, st.2)])

end Slot

/-! ### `Shelf` -/

/-- The state of a `Shelf` (`models/__init__.py`).  Timestamps are abstracted
as natural numbers. -/
structure ShelfState where
  slots : List SlotState
  lastReportTime : ℕ
deriving Repr, DecidableEq

/-- The fixed `datetime(2022, 2, 2, 2, 2, 2, 2)` that `Shelf.__init__` stores
as `last_report_time` (ignoring the `created_time` argument), as an abstract
timestamp. -/
def INITIAL_REPORT_TIME : ℕ := 0

namespace Shelf

/-- The loop in `Shelf.__init__`: for `i` up to the shorter of the two lists,
set the slot's previous weight when the corresponding initial weight is not
`None`. -/
def applyInitialWeights : List SlotState → List (Option ℚ) → List SlotState
  | [], _ => []
  | ss, [] => ss
  | s :: ss, w :: ws =>
    (match w with
      | some x => Slot.setPreviousWeight s (some x)
      | none => s) :: applyInitialWeights ss ws

/-- `Shelf.__init__(slots, created_time, initial_weights)`. -/
def init (slots : List SlotState) (_createdTime : ℕ)
    (initialWeights : List (Option ℚ)) : ShelfState :=
  { slots := applyInitialWeights slots initialWeights
    lastReportTime := INITIAL_REPORT_TIME }

/-- `results_dict[item] = q` / `results_dict[item] += q`, with dictionary
keys compared by `Item.__eq__` (`item_id`) and insertion order preserved. -/
def dictAdd (d : List (Item × ℤ)) (item : Item) (q : ℤ) : List (Item × ℤ) :=
  if d.any (fun p => p.1 == item) then
    d.map (fun p => if p.1 == item then (p.1, p.2 + q) else p)
  else d ++ [(item, q)]

/-- The `for i in range(4)` loop of `Shelf.update`.  The condition
`i < len(self.slots) and raw_weights[i] is not None` short-circuits, so
`raw_weights[i]` (and its possible `IndexError`) is only evaluated when a
slot exists at `i`; `self.slots[i] is not None` is always true for the
shelves this program builds.  A raised exception propagates, keeping the
mutations made to earlier slots. -/
def updateLoop (rawWeights : List (Option ℚ)) :
    ℕ → ℕ → List SlotState → List (Item × ℤ) →
    List SlotState × Except PyErr (List (Item × ℤ))
  | 0, _, slots, acc => (slots, .ok acc)
  | fuel + 1, i, slots, acc =>
    if hsl : i < slots.length then
      if hrw : i < rawWeights.length then
        match rawWeights.get ⟨i, hrw⟩ with
        | none => updateLoop rawWeights fuel (i + 1) slots acc
        | some x =>
          let r := Slot.update (slots.get ⟨i, hsl⟩) x
          let slots' := slots.set i r.1
          match r.2 with
          | .error e => (slots', .error e)
          | .ok changes =>
            updateLoop rawWeights fuel (i + 1) slots'
              (changes.foldl (fun d p => dictAdd d p.1 p.2) acc)
      else (slots, .error .indexError)
    else updateLoop rawWeights fuel (i + 1) slots acc

/-- `Shelf.update(raw_weights, update_received_time)`: sets
`last_report_time`, runs every slot with a present reading, and aggregates
the per-item quantity changes (the dictionary is returned as a list of
pairs in insertion order). -/
def update (sh : ShelfState) (rawWeights : List (Option ℚ)) (t : ℕ) :
    ShelfState × Except PyErr (List (Item × ℤ)) :=
  let r := updateLoop rawWeights 4 0 sh.slots []
  ({ slots := r.1, lastReportTime := t }, r.2)

end Shelf

/-! ### `ShelfManager` (`shelf_manager.py` and `bnb/old_shelf_manager.py`) -/

/-- A decoded element of the message's `"data"` array.  The inbound schema is
`[<float|null> x4]`, so after JSON decoding each element is a number or
Python `None`. -/
inductive JVal where
  | num (q : ℚ)
  | null
deriving Repr, DecidableEq

/-- A cart-callback invocation recorded in order. -/
inductive CartEvent where
  | add (item : Item)
  | remove (item : Item)
deriving Repr, DecidableEq

/-- `float(x)` on a decoded data element: numbers coerce to themselves and
`float(None)` raises `TypeError`. -/
def floatCast : JVal → Except PyErr ℚ
  | .num q => .ok q
  | .null => .error .typeError

/-- The datapoint-casting loop of `on_shelf_data_cb`.  The source guards
`float` with `except TypeError | ValueError:`, but `TypeError | ValueError`
is a `types.UnionType`, which is not a legal exception specification: when
`float` raises, evaluating the clause itself raises
`TypeError: catching classes that do not inherit from BaseException is not
allowed`, so the failure propagates and `None` is never substituted. -/
def castData : List JVal → Except PyErr (List ℚ)
  | [] => .ok []
  | v :: vs =>
    match floatCast v with
    | .ok q => (castData vs).map (q :: ·)
    | .error _ => .error .typeError

/-- Modelled from the spec: the intended casting loop of `route`, in which "a
numeric-coercion failure on one element substitutes null for that slot only".
The code's `except TypeError | ValueError:` clause was meant to implement
this but raises instead of catching (see `castData`). -/
def castDataSpec : List JVal → List (Option ℚ)
  | [] => []
  | v :: vs =>
    (match floatCast v with
      | .ok q => some q
      | .error _ => none) :: castDataSpec vs

def NUM_SLOTS_PER_SHELF : ℕ := 4

/-- `SHELF_ITEM_MAP` from `shelf_manager.py`: four registered identifiers,
each with four slots constructed from an empty item list. -/
def SHELF_ITEM_MAP : List (String × List SlotState) :=
  [("MAC_1", [Slot.init [], Slot.init [], Slot.init [], Slot.init []]),
   ("MAC_2", [Slot.init [], Slot.init [], Slot.init [], Slot.init []]),
   ("MAC_3", [Slot.init [], Slot.init [], Slot.init [], Slot.init []]),
   ("MAC_4", [Slot.init [], Slot.init [], Slot.init [], Slot.init []])]

/-! The mock items of `bnb/database.py` referenced by
`bnb/old_shelf_manager.py`'s assignment table (fields: id, name, upc,
price, units, avg_weight, std_weight, thumbnail_url, vision_class). -/

def MOCK_ITEM_1 : Item :=
  ⟨1, "Little Bites Chocolate", "123456789012", 21 / 10, 100, 47, 10,
    "images/item_placeholder.png", "pouch"⟩

def MOCK_ITEM_6 : Item :=
  ⟨6, "Brownie Brittle Chocolate Chip", "678901234567", 3499 / 100, 60, 78,
    10, "images/item_placeholder.png", "rectangle"⟩

def MOCK_ITEM_9 : Item :=
  ⟨9, "Sour Patch Kids", "", 35 / 10, 100, 226, 20,
    "images/item_placeholder.png", "sour-patch"⟩

def MOCK_ITEM_10 : Item :=
  ⟨10, "12 Pack Wild Cherry Pepsi", "", 55 / 10, 100, 4000, 500,
    "images/item_placeholder.png", "pepsi-box"⟩

def MOCK_ITEM_11 : Item :=
  ⟨11, "12 Pack Loganberry", "", 55 / 10, 100, 4000, 500,
    "images/item_placeholder.png", "loganberry-box"⟩

def MOCK_ITEM_12 : Item :=
  ⟨12, "EMPTY", "", 0, 100, 10000000, 0,
    "images/item_placeholder.png", ""⟩

def MOCK_ITEM_13 : Item :=
  ⟨13, "Wild Cherry Pepsi Can", "", 25 / 10, 100, 200, 20,
    "images/item_placeholder.png", ""⟩

def MOCK_ITEM_14 : Item :=
  ⟨14, "Little Bites Blueberry", "123456789012", 21 / 10, 100, 47, 10,
    "images/item_placeholder.png", "pouch"⟩

/-- `SHELF_ITEM_MAP` from `bnb/old_shelf_manager.py`: `MAC_1` with empty
slots plus three hardware MACs whose slots carry mock items
(`Slot.__init__` deep-copies its item list, so value semantics is
faithful). -/
def OLD_SHELF_ITEM_MAP : List (String × List SlotState) :=
  [("MAC_1", [Slot.init [], Slot.init [], Slot.init [], Slot.init []]),
   ("80:65:99:49:EF:8E",
     [Slot.init [MOCK_ITEM_9], Slot.init [MOCK_ITEM_14],
      Slot.init [MOCK_ITEM_1], Slot.init [MOCK_ITEM_6]]),
   ("80:65:99:E3:EF:50",
     [Slot.init [MOCK_ITEM_9], Slot.init [MOCK_ITEM_14],
      Slot.init [MOCK_ITEM_1], Slot.init [MOCK_ITEM_6]]),
   ("80:65:99:E3:8B:92",
     [Slot.init [MOCK_ITEM_13], Slot.init [MOCK_ITEM_11],
      Slot.init [MOCK_ITEM_10], Slot.init [MOCK_ITEM_12]])]

/-- The `_mac_to_shelf_map` of a `ShelfManager` (the stop flag and loop
timestamp live in the watchdog model below). -/
structure ManagerState where
  macToShelfMap : List (String × ShelfState)
deriving Repr, DecidableEq

/-- Dictionary lookup with string keys and insertion order preserved. -/
def lookupAssoc {α : Type} (m : List (String × α)) (k : String) : Option α :=
  (m.find? (fun p => p.1 == k)).map (·.2)

/-- `m[k] = v` on an insertion-ordered dictionary. -/
def setAssoc {α : Type} (m : List (String × α)) (k : String) (v : α) :
    List (String × α) :=
  if m.any (fun p => p.1 == k) then
    m.map (fun p => if p.1 == k then (k, v) else p)
  else m ++ [(k, v)]

/-- The callback loop of `shelf_manager.py`'s `on_shelf_data_cb` (lines
100-106): a positive quantity change invokes `add_to_cart_cb` that many
times, a negative one invokes `remove_from_cart_cb` `abs(quantity_change)`
times. -/
def cartEventsNew (changes : List (Item × ℤ)) : List CartEvent :=
  changes.foldr
    (fun p acc =>
      (if 0 < p.2 then List.replicate p.2.toNat (CartEvent.add p.1)
       else if p.2 < 0 then List.replicate p.2.natAbs (CartEvent.remove p.1)
       else []) ++ acc) []

/-- The callback loop of `old_shelf_manager.py`'s `old_on_shelf_data_cb`
(lines 130-136): the opposite sign mapping — a positive quantity change
invokes `remove_from_cart_cb`, a negative one invokes `add_to_cart_cb`. -/
def cartEventsOld (changes : List (Item × ℤ)) : List CartEvent :=
  changes.foldr
    (fun p acc =>
      (if 0 < p.2 then List.replicate p.2.toNat (CartEvent.remove p.1)
       else if p.2 < 0 then List.replicate p.2.natAbs (CartEvent.add p.1)
       else []) ++ acc) []

namespace ShelfManager

/-- `ShelfManager.on_shelf_data_cb`, from the point where the message has
been JSON-decoded and found to carry an `"id"` string and a `"data"` list
(messages failing those checks are dropped earlier, with no state change).
Returns the manager state after the call and either the list of cart
callbacks invoked, in order, or the exception that propagated.
`table` is the module's static assignment table and `events` the sign
mapping of the callback loop (the two points where the two source variants
differ). -/
def onShelfDataCbWith (table : List (String × List SlotState))
    (events : List (Item × ℤ) → List CartEvent)
    (st : ManagerState) (mac : String) (rawData : List JVal)
    (receivedTime : ℕ) : ManagerState × Except PyErr (List CartEvent) :=
  -- if len(raw_data) != NUM_SLOTS_PER_SHELF: return
  if rawData.length ≠ NUM_SLOTS_PER_SHELF then (st, .ok [])
  else
    match castData rawData with
    | .error e => (st, .error e)
    | .ok qs =>
      let data : List (Option ℚ) := qs.map some
      match lookupAssoc st.macToShelfMap mac with
      | none =>
        -- new shelf: only initialized when the mac is in the module's table
        match lookupAssoc table mac with
        | none => (st, .ok [])
        | some slots =>
          ({ macToShelfMap :=
              setAssoc st.macToShelfMap mac
                (Shelf.init slots receivedTime data) }, .ok [])
      | some shelf =>
        -- existing shelf: update it and fire the cart callbacks
        let r := Shelf.update shelf data receivedTime
        let st' : ManagerState :=
          { macToShelfMap := setAssoc st.macToShelfMap mac r.1 }
        match r.2 with
        | .error e => (st', .error e)
        | .ok changes => (st', .ok (events changes))

/-- `on_shelf_data_cb` of `shelf_manager.py`: its own `SHELF_ITEM_MAP`,
add-to-cart on positive quantity changes. -/
def onShelfDataCb : ManagerState → String → List JVal → ℕ →
    ManagerState × Except PyErr (List CartEvent) :=
  onShelfDataCbWith SHELF_ITEM_MAP cartEventsNew

/-- `old_on_shelf_data_cb` of `bnb/old_shelf_manager.py`: same body, but its
module's own `SHELF_ITEM_MAP` (`OLD_SHELF_ITEM_MAP` here) and the swapped
callback mapping. -/
def oldOnShelfDataCb : ManagerState → String → List JVal → ℕ →
    ManagerState × Except PyErr (List CartEvent) :=
  onShelfDataCbWith OLD_SHELF_ITEM_MAP cartEventsOld

end ShelfManager

/-! ### Watchdog loop (`ShelfManager.main_loop`) -/

def LOOP_DELAY_MS : ℚ := 200

/-- The watchdog fields of the manager: the mutex-guarded stop flag and the
`_last_loop_ms` timestamp (milliseconds as a rational). -/
structure WatchdogState where
  signalEnd : Bool
  lastLoopMs : ℚ
deriving Repr, DecidableEq

/-- The deadline (in seconds) before which the busy-wait
`while time.time() < (self._last_loop_ms + LOOP_DELAY_MS) / 1000: pass`
spins. -/
def waitDeadlineS (st : WatchdogState) : ℚ :=
  (st.lastLoopMs + LOOP_DELAY_MS) / 1000

/-- One pass of the `while True:` body of `main_loop` after the stop flag was
checked and found unset, given the time (in seconds) at which the busy-wait
finished.  The final statement `last_loop_ms = time.time() * 1000` binds a
fresh local variable; `self._last_loop_ms` is never assigned inside the
loop, so the manager's watchdog state is returned unchanged (the second
component is the discarded local). -/
def mainLoopBodyOnce (st : WatchdogState) (timeAfterWaitS : ℚ) :
    WatchdogState × ℚ :=
  (st, timeAfterWaitS * 1000)

/-- Modelled from the spec: `stop()` — absent from the source, which never
sets `_signal_end` — "sets the flag, observed at the top of the next tick". -/
def stop (st : WatchdogState) : WatchdogState :=
  { st with signalEnd := true }

/-- `main_loop` entry: `self._last_loop_ms = time.time() * 1000`. -/
def mainLoopStart (st : WatchdogState) (startTimeS : ℚ) : WatchdogState :=
  { st with lastLoopMs := startTimeS * 1000 }

/-! ### Helper lemmas -/

/-- `statistics.median` of a two-element list is the mean of its elements. -/
theorem pymedian_pair (a b : ℚ) : pymedian [a, b] = (a + b) / 2 := by
  by_cases h : a ≤ b
  · simp [pymedian, pysort, insertSorted, h]
    try ring
  · simp [pymedian, pysort, insertSorted, h]
    try ring

/-- `Slot.update` on a slot with no assigned item raises `IndexError` after
recording the raw weight. -/
theorem update_empty_items (s : SlotState) (w : ℚ) (h : s.items = []) :
    Slot.update s w =
      ({ s with previousRawWeight := some w }, .error .indexError) := by
  obtain ⟨items, p, c, store, lp, ln, pr, iu⟩ := s
  subst h
  rfl

/-! ### Claims -/

/-- C6: `Slot.update` reads `self.items[0]` up front; every slot of every
entry of the static `SHELF_ITEM_MAP` is built from an empty item list, so every
`update` call on such a slot raises `IndexError` — a nonempty item
assignment is a precondition for `update` to be safe. -/
theorem C6_shelf_item_map_slots_unsafe (mac : String) (slots : List SlotState)
    (hmem : (mac, slots) ∈ SHELF_ITEM_MAP) (s : SlotState) (hs : s ∈ slots)
    (w : ℚ) :
    s.items = [] ∧ (Slot.update s w).2 = Except.error PyErr.indexError := by
  have hempty : s.items = [] := by
    simp only [SHELF_ITEM_MAP, List.mem_cons, List.mem_singleton,
      Prod.mk.injEq, List.not_mem_nil, or_false] at hmem
    rcases hmem with ⟨_, h⟩ | ⟨_, h⟩ | ⟨_, h⟩ | ⟨_, h⟩ <;>
      (subst h; simp only [List.mem_cons, List.mem_singleton,
        List.not_mem_nil, or_false] at hs) <;>
      rcases hs with h | h | h | h <;> (subst h; rfl)
  exact ⟨hempty, by rw [update_empty_items s w hempty]⟩

/-- Witness for C6 at a concrete slot of the table. -/
theorem C6_shelf_item_map_slots_unsafe_witness :
    (Slot.init []).items = [] ∧
      (Slot.update (Slot.init []) 5).2 = Except.error PyErr.indexError :=
  C6_shelf_item_map_slots_unsafe "MAC_1"
    [Slot.init [], Slot.init [], Slot.init [], Slot.init []]
    (by simp [SHELF_ITEM_MAP]) (Slot.init []) (by simp) 5

/-- C5: `calc_conversion_factor` sets and returns
`known / (loaded - zero)` when `loaded ≠ zero`, and when `loaded = zero` it
leaves the slot state unchanged (the prior factor is retained, nothing is
partially applied), returns the prior factor and signals a calibration
error. -/
theorem C5_calc_conversion_factor (s : SlotState) (z l k : ℚ) :
    (l ≠ z →
      Slot.calcConversionFactor s z l k =
        { state := { s with conversionFactor := k / (l - z) },
          returned := k / (l - z), errorLogged := false })
    ∧ (l = z →
      Slot.calcConversionFactor s z l k =
        { state := s, returned := s.conversionFactor, errorLogged := true }) := by
  constructor <;> intro h <;> simp [Slot.calcConversionFactor, h]

/-- Witness for C5: `calibrate(0, 500, 226)` yields factor `0.452 = 113/250`;
`calibrate(100, 100, 226)` keeps the default factor `0.44` and logs the
error. -/
theorem C5_calc_conversion_factor_witness :
    Slot.calcConversionFactor (Slot.init []) 0 500 226 =
      { state := { Slot.init [] with conversionFactor := 113 / 250 },
        returned := 113 / 250, errorLogged := false }
    ∧ Slot.calcConversionFactor (Slot.init []) 100 100 226 =
      { state := Slot.init [], returned := 44 / 100, errorLogged := true } := by
  constructor
  · rw [(C5_calc_conversion_factor (Slot.init []) 0 500 226).1 (by norm_num)]
    norm_num
  · exact (C5_calc_conversion_factor (Slot.init []) 100 100 226).2 rfl

/-- C10 (code bug): the `while True:` body of `main_loop` never writes
`self._last_loop_ms` — its final statement `last_loop_ms = time.time() * 1000`
binds a local — so over any number of iterations the field, and with it the
busy-wait deadline, keeps the value from loop entry; ticks after the first
do not wait for a fresh 200 ms cadence boundary. -/
theorem C10_main_loop_deadline_never_advances (st : WatchdogState)
    (startTimeS : ℚ) (ticks : List ℚ) :
    ticks.foldl (fun s t => (mainLoopBodyOnce s t).1)
        (mainLoopStart st startTimeS) = mainLoopStart st startTimeS
    ∧ waitDeadlineS
        (ticks.foldl (fun s t => (mainLoopBodyOnce s t).1)
          (mainLoopStart st startTimeS)) =
      (startTimeS * 1000 + 200) / 1000 := by
  have h : ∀ (l : List ℚ) (s : WatchdogState),
      l.foldl (fun s t => (mainLoopBodyOnce s t).1) s = s := by
    intro l
    induction l with
    | nil => intro s; rfl
    | cons x xs ih => intro s; exact ih s
  refine ⟨h ticks _, ?_⟩
  rw [h ticks _]
  rfl

/-- C4 (code bug): a data element that fails numeric coercion does not get
null substituted for its slot — the `except TypeError | ValueError:` clause
is an invalid exception specification and itself raises `TypeError`, which
propagates out of the callback with no slot of the message processed.  The
spec-modelled `castDataSpec` shows the intended per-slot substitution. -/
theorem C4_cast_failure_propagates (st : ManagerState) :
    ShelfManager.onShelfDataCb st "MAC_1"
        [JVal.num 1, JVal.null, JVal.num 2, JVal.num 3] 0 =
      (st, Except.error PyErr.typeError)
    ∧ castDataSpec [JVal.num 1, JVal.null, JVal.num 2, JVal.num 3] =
      [some 1, none, some 2, some 3] :=
  ⟨rfl, rfl⟩

/-- A message for an identifier that is neither a known shelf nor in
`SHELF_ITEM_MAP` leaves the manager state unchanged; with cleanly casting
data it is dropped with no callback and no exception, while a
coercion-failing data element of a correct-arity message makes the
exception propagate (still with no callback). -/
theorem route_unknown_mac_single (st : ManagerState) (mac : String)
    (d : List JVal) (t : ℕ)
    (hmap : lookupAssoc st.macToShelfMap mac = none)
    (htab : lookupAssoc SHELF_ITEM_MAP mac = none) :
    (ShelfManager.onShelfDataCb st mac d t).1 = st
    ∧ (∀ qs, castData d = .ok qs →
        ShelfManager.onShelfDataCb st mac d t = (st, .ok []))
    ∧ (d.length = NUM_SLOTS_PER_SHELF → ∀ e, castData d = .error e →
        ShelfManager.onShelfDataCb st mac d t = (st, .error e)) := by
  unfold ShelfManager.onShelfDataCb ShelfManager.onShelfDataCbWith
  refine ⟨?_, ?_, ?_⟩
  · by_cases hl : d.length ≠ NUM_SLOTS_PER_SHELF
    · simp [hl]
    · cases hc : castData d with
      | error e => simp [hl, hc]
      | ok qs => simp [hl, hc, hmap, htab]
  · intro qs hc
    by_cases hl : d.length ≠ NUM_SLOTS_PER_SHELF
    · simp [hl]
    · simp [hl, hc, hmap, htab]
  · intro hlen e hc
    simp [hlen, hc]

/-- C7 counterexample: a message for the unregistered identifier `UNKNOWN`
whose data is `[null, null, null, null]` (valid per the inbound schema) is
not dropped cleanly — the coercion loop runs before the identifier check,
and the broken except clause makes a `TypeError` propagate out of the
callback.  No shelf is created and no callback fires, but an error does
propagate, contrary to the claim. -/
theorem C7_unknown_identifier_counterexample :
    ShelfManager.onShelfDataCb ⟨[]⟩ "UNKNOWN"
        [JVal.null, JVal.null, JVal.null, JVal.null] 0 =
      (⟨[]⟩, .error .typeError)
    ∧ (Except.error PyErr.typeError : Except PyErr (List CartEvent)) ≠
        .ok [] :=
  ⟨rfl, by simp⟩

/-- C7 as amended: routing any sequence of messages whose identifier is
absent from the static `SHELF_ITEM_MAP` creates no shelf — the
identifier-to-shelf mapping is unchanged after the whole sequence — and
invokes no callback; a message whose data casts cleanly is dropped with no
exception, but a correct-arity message with a coercion-failing element
(e.g. null) propagates the `TypeError` of the broken except clause out of
the callback before the identifier is even consulted. -/
theorem C7_unknown_identifier_dropped (st : ManagerState) (mac : String)
    (msgs : List (List JVal × ℕ))
    (hmap : lookupAssoc st.macToShelfMap mac = none)
    (htab : lookupAssoc SHELF_ITEM_MAP mac = none) :
    msgs.foldl (fun s m => (ShelfManager.onShelfDataCb s mac m.1 m.2).1) st
      = st
    ∧ (∀ m ∈ msgs, ∀ qs, castData m.1 = .ok qs →
        ShelfManager.onShelfDataCb st mac m.1 m.2 = (st, .ok []))
    ∧ (∀ m ∈ msgs, m.1.length = NUM_SLOTS_PER_SHELF →
        ∀ e, castData m.1 = .error e →
          ShelfManager.onShelfDataCb st mac m.1 m.2 = (st, .error e)) := by
  refine ⟨?_, ?_, ?_⟩
  · induction msgs with
    | nil => rfl
    | cons m ms ih =>
      have h1 := (route_unknown_mac_single st mac m.1 m.2 hmap htab).1
      simpa [h1] using ih
  · intro m _ qs hc
    exact (route_unknown_mac_single st mac m.1 m.2 hmap htab).2.1 qs hc
  · intro m _ hlen e hc
    exact (route_unknown_mac_single st mac m.1 m.2 hmap htab).2.2 hlen e hc

/-- Witness for C7 as amended at a concrete unregistered identifier: a
clean message is dropped silently; a message with a null element raises. -/
theorem C7_unknown_identifier_dropped_witness :
    ShelfManager.onShelfDataCb ⟨[]⟩ "UNKNOWN"
        [JVal.num 1, JVal.num 2, JVal.num 3, JVal.num 4] 0 =
      (⟨[]⟩, .ok [])
    ∧ ShelfManager.onShelfDataCb ⟨[]⟩ "UNKNOWN"
        [JVal.num 1, JVal.null, JVal.num 3, JVal.num 4] 0 =
      (⟨[]⟩, .error .typeError) := by
  have h := C7_unknown_identifier_dropped ⟨[]⟩ "UNKNOWN"
    [([JVal.num 1, JVal.num 2, JVal.num 3, JVal.num 4], 0),
     ([JVal.num 1, JVal.null, JVal.num 3, JVal.num 4], 0)] rfl (by rfl)
  exact ⟨h.2.1 ([JVal.num 1, JVal.num 2, JVal.num 3, JVal.num 4], 0)
      (by simp) [1, 2, 3, 4] rfl,
    h.2.2 ([JVal.num 1, JVal.null, JVal.num 3, JVal.num 4], 0) (by simp) rfl
      PyErr.typeError rfl⟩

/-- A calibration operation on a slot. -/
inductive CalibOp where
  | calcFactor (zeroWeightG loadedWeightG knownWeightG : ℚ)
  | setFactor (factor : ℚ)
deriving Repr

/-- Apply a calibration operation to a slot's state. -/
def applyCalibOp (s : SlotState) : CalibOp → SlotState
  | .calcFactor z l k => (Slot.calcConversionFactor s z l k).state
  | .setFactor f => Slot.setConversionFactor s f

/-- An operation whose arguments yield a positive factor: a set with a
positive factor, or a calc that either fails (keeping the prior factor) or
computes a positive quotient. -/
def CalibOp.positive : CalibOp → Prop
  | .calcFactor z l k => l = z ∨ 0 < k / (l - z)
  | .setFactor f => 0 < f

/-- C9 counterexample: neither calibration operation validates its
arguments — `set_conversion_factor(-1)` installs the negative factor `-1`,
so the conversion factor is not always positive once set. -/
theorem C9_negative_factor_counterexample :
    (Slot.setConversionFactor (Slot.init []) (-1)).conversionFactor = -1
    ∧ ¬ 0 < (Slot.setConversionFactor (Slot.init []) (-1)).conversionFactor := by
  norm_num [Slot.setConversionFactor, Slot.init]

/-- C9 as amended: starting from the default factor `0.44`, any sequence of
calibration operations whose arguments keep the quotient positive (the code
itself enforces nothing) leaves the conversion factor strictly positive. -/
theorem C9_factor_positive_for_positive_ops (items : List Item)
    (ops : List CalibOp) (hops : ∀ op ∈ ops, op.positive) :
    0 < ((ops.foldl applyCalibOp (Slot.init items)).conversionFactor) := by
  have step : ∀ (s : SlotState) (op : CalibOp), 0 < s.conversionFactor →
      op.positive → 0 < (applyCalibOp s op).conversionFactor := by
    intro s op hs hop
    cases op with
    | setFactor f => exact hop
    | calcFactor z l k =>
      by_cases h : l = z
      · simpa [applyCalibOp, Slot.calcConversionFactor, h] using hs
      · rcases hop with h' | h'
        · exact absurd h' h
        · simpa [applyCalibOp, Slot.calcConversionFactor, h] using h'
  have main : ∀ (l : List CalibOp) (s : SlotState), (∀ op ∈ l, op.positive) →
      0 < s.conversionFactor → 0 < (l.foldl applyCalibOp s).conversionFactor := by
    intro l
    induction l with
    | nil => intro s _ hs; exact hs
    | cons op rest ih =>
      intro s hl hs
      exact ih (applyCalibOp s op) (fun o ho => hl o (List.mem_cons_of_mem _ ho))
        (step s op hs (hl op (List.mem_cons_self _ _)))
  exact main ops (Slot.init items) hops (by norm_num [Slot.init])

/-- Witness for C9 as amended: calibrate, set, and a failing calibrate in
sequence keep the factor positive. -/
theorem C9_factor_positive_for_positive_ops_witness :
    0 < (([CalibOp.calcFactor 0 500 226, CalibOp.setFactor 2,
           CalibOp.calcFactor 5 5 1].foldl applyCalibOp
            (Slot.init [])).conversionFactor) :=
  C9_factor_positive_for_positive_ops [] _ (by
    intro op hop
    simp only [List.mem_cons, List.not_mem_nil, or_false] at hop
    rcases hop with rfl | rfl | rfl <;> simp [CalibOp.positive])

/-- A one-item test slot used in concrete runs: average weight 100 g,
standard deviation 10 g. -/
def c2Item : Item := ⟨2, "c2", "", 0, 0, 100, 10, "", ""⟩

/-- A slot about to see a glitch: previous smoothed weight 0, rolling buffer
`[0, 7]`, conversion factor 1. -/
def c2Slot : SlotState := ⟨[c2Item], some 0, 1, [0, 7], false, 0, some 0, 0⟩

/-- Concrete evaluation of a glitch cycle: the reading 20000 pushes the
buffer to `[20000, 0]`, evicting `7`; the median difference 10000 exceeds
the 5000 g limit, so the call returns `[]` with latches, debounce counter
and — contrary to the claim — the previous smoothed weight untouched. -/
theorem c2_glitch_run :
    Slot.update c2Slot 20000 =
      (⟨[c2Item], some 0, 1, [20000, 0], false, 0, some 20000, 0⟩,
        .ok []) := by
  simp [Slot.update, c2Slot, c2Item, pymedian, pysort, insertSorted, pymod,
    pyround, EXTRANEOUS_VALUE_LIMIT, ITERS_REQD_NO_UPDATE]
  norm_num

/-- C2 counterexample: on a glitch cycle the value evicted from the rolling
buffer is `7`, but the previous smoothed weight after the call is still `0`
— the weight-history advance (step 7 of the update sequence) is skipped by
the early return, so the claim's frame condition fails. -/
theorem C2_glitch_counterexample :
    (Slot.update c2Slot 20000).1.previousWeightG = some 0
    ∧ c2Slot.weightStore.getLastD (20000 * c2Slot.conversionFactor) = 7
    ∧ (Slot.update c2Slot 20000).1.previousWeightG ≠ some 7 := by
  rw [c2_glitch_run]
  refine ⟨rfl, rfl, by simp⟩

/-- C2 as amended: when the absolute difference between the rolling median
and the previous smoothed weight exceeds the 5000 g extraneous limit,
`update` returns no delta pairs and leaves the two latches and the debounce
counter unchanged; the rolling buffer still advances (the new normalized
weight is inserted and the oldest entry evicted), but the previous smoothed
weight is NOT set to the evicted value — the early return skips that
assignment, leaving it unchanged. -/
theorem C2_glitch_frame (s : SlotState) (u : ℚ) (item : Item)
    (rest : List Item) (p : ℚ)
    (hitems : s.items = item :: rest)
    (hprev : s.previousWeightG = some p)
    (hA0 : item.avgWeight ≠ 0)
    (hglitch : EXTRANEOUS_VALUE_LIMIT <
      |pymedian ((u * s.conversionFactor :: s.weightStore).dropLast) - p|) :
    Slot.update s u =
      ({ s with
          previousRawWeight := some u,
          weightStore := (u * s.conversionFactor :: s.weightStore).dropLast },
        .ok []) := by
  obtain ⟨items, pg, c, store, lp, ln, pr, iu⟩ := s
  simp only at hitems hprev hglitch ⊢
  subst hitems hprev
  unfold Slot.update
  simp [hA0, hglitch]

/-- Witness for C2 as amended at the concrete glitch cycle. -/
theorem C2_glitch_frame_witness :
    Slot.update c2Slot 20000 =
      ({ c2Slot with
          previousRawWeight := some 20000,
          weightStore :=
            (20000 * c2Slot.conversionFactor :: c2Slot.weightStore).dropLast },
        .ok []) :=
  C2_glitch_frame c2Slot 20000 c2Item [] 0 rfl rfl
    (by norm_num [c2Item])
    (by
      have : (20000 * c2Slot.conversionFactor ::
          c2Slot.weightStore).dropLast = [20000 * 1, 0] := rfl
      rw [this, pymedian_pair]
      norm_num [EXTRANEOUS_VALUE_LIMIT])

/-- The latch invariant of a slot: the positive latch and a pending
negative count are never both set. -/
def latchInv (s : SlotState) : Prop :=
  ¬ (s.lastPos = true ∧ s.lastNeg ≠ 0)

/-- Each branch of `Slot.update` preserves the latch invariant: the
positive-emit branch sets the positive latch and clears the negative one,
the negative-emit branch does the reverse, the settle branch clears both,
and every other branch leaves both untouched. -/
theorem update_preserves_latchInv (s : SlotState) (u : ℚ)
    (h : latchInv s) : latchInv (Slot.update s u).1 := by
  obtain ⟨items, pg, c, store, lp, ln, pr, iu⟩ := s
  cases items with
  | nil => exact h
  | cons item rest =>
    cases pg with
    | none => exact h
    | some p =>
      unfold Slot.update
      dsimp only
      split_ifs with h0 hg hcond hq1 hlp hq2 hln hiu <;>
        first
          | exact h
          | (simp only [latchInv] at h ⊢; simp_all)

/-- C8: from the initial slot state, after any sequence of `update` calls
the positive latch and a nonzero negative latch are never both pending. -/
theorem C8_latches_never_both_pending (items : List Item) (ws : List ℚ) :
    latchInv (ws.foldl (fun s w => (Slot.update s w).1) (Slot.init items)) := by
  have main : ∀ (l : List ℚ) (s : SlotState), latchInv s →
      latchInv (l.foldl (fun s w => (Slot.update s w).1) s) := by
    intro l
    induction l with
    | nil => intro s hs; exact hs
    | cons w ws ih =>
      intro s hs
      exact ih _ (update_preserves_latchInv s w hs)
  exact main ws (Slot.init items) (by simp [latchInv, Slot.init])

/-- A one-item slot poised to report a +1 quantity change on reading 100. -/
def c1Item : Item := ⟨1, "c1", "", 0, 0, 100, 10, "", ""⟩

def c1Slot : SlotState := ⟨[c1Item], some 0, 1, [100, 100], false, 0, some 0, 0⟩

def c1Shelf : ShelfState := ⟨[c1Slot], 0⟩

def c1State : ManagerState := ⟨[("SHELF_A", c1Shelf)]⟩

/-- Concrete slot cycle used for C1: a mass increase of 100 g on an item of
average weight 100 g emits quantity change +1. -/
theorem c1_slot_run :
    Slot.update c1Slot 100 =
      (⟨[c1Item], some 100, 1, [100, 100], true, 0, some 100, 0⟩,
        .ok [(c1Item, 1)]) := by
  simp [Slot.update, c1Slot, c1Item, pymedian, pysort, insertSorted, pymod,
    pyround, EXTRANEOUS_VALUE_LIMIT, ITERS_REQD_NO_UPDATE]
  norm_num

/-- The shelf run for C1: only slot 0 exists, so only the first reading is
processed, giving the aggregated change list `[(c1Item, +1)]`. -/
theorem c1_shelf_run (t : ℕ) :
    Shelf.update c1Shelf [some 100, some 0, some 0, some 0] t =
      (⟨[⟨[c1Item], some 100, 1, [100, 100], true, 0, some 100, 0⟩], t⟩,
        .ok [(c1Item, 1)]) := by
  unfold Shelf.update Shelf.updateLoop
  simp [c1Shelf, c1_slot_run, Shelf.dictAdd, Shelf.updateLoop]

/-- C1 counterexample: a routed message for the existing shelf `SHELF_A`
whose shelf update returns the pair `(c1Item, +1)` makes
`on_shelf_data_cb` (`shelf_manager.py`) invoke the ADD-to-cart callback
once and the remove-from-cart callback zero times — the claimed mapping
(remove on positive delta) is what `old_on_shelf_data_cb` does, not what
the current handler does. -/
theorem C1_sign_mapping_counterexample :
    (ShelfManager.onShelfDataCb c1State "SHELF_A"
        [JVal.num 100, JVal.num 0, JVal.num 0, JVal.num 0] 1).2 =
      .ok [CartEvent.add c1Item]
    ∧ [CartEvent.add c1Item].count (CartEvent.remove c1Item) = 0 := by
  constructor
  · unfold ShelfManager.onShelfDataCb ShelfManager.onShelfDataCbWith
    simp [castData, floatCast, Except.map, lookupAssoc, setAssoc, c1State,
      List.map, c1_shelf_run, cartEventsNew, NUM_SLOTS_PER_SHELF]
  · rfl

/-- C1 as amended: for every routed message for an existing shelf and every
`(item, delta)` pair returned by the shelf update, the current handler
(`shelf_manager.py`) invokes the ADD-to-cart callback `delta` times when
`delta > 0` and the REMOVE-from-cart callback `abs(delta)` times when
`delta < 0` (and nothing when `delta = 0`), while the historical handler
(`old_shelf_manager.py`) implements the claimed (canonical) mapping with
the two callbacks swapped. -/
theorem C1_sign_mapping (st : ManagerState) (mac : String) (sh : ShelfState)
    (d : List JVal) (t : ℕ) (qs : List ℚ) (changes : List (Item × ℤ))
    (hlen : d.length = NUM_SLOTS_PER_SHELF)
    (hcast : castData d = .ok qs)
    (hmac : lookupAssoc st.macToShelfMap mac = some sh)
    (hupd : (Shelf.update sh (qs.map some) t).2 = .ok changes) :
    (ShelfManager.onShelfDataCb st mac d t).2 = .ok (cartEventsNew changes)
    ∧ (ShelfManager.oldOnShelfDataCb st mac d t).2 =
        .ok (cartEventsOld changes)
    ∧ ∀ (item : Item) (q : ℤ),
        ((cartEventsNew [(item, q)]).count (CartEvent.add item) =
          if 0 < q then q.toNat else 0)
        ∧ ((cartEventsNew [(item, q)]).count (CartEvent.remove item) =
          if q < 0 then q.natAbs else 0)
        ∧ ((cartEventsOld [(item, q)]).count (CartEvent.remove item) =
          if 0 < q then q.toNat else 0)
        ∧ ((cartEventsOld [(item, q)]).count (CartEvent.add item) =
          if q < 0 then q.natAbs else 0) := by
  refine ⟨?_, ?_, ?_⟩
  · unfold ShelfManager.onShelfDataCb ShelfManager.onShelfDataCbWith
    simp [hlen, hcast, hmac, hupd]
  · unfold ShelfManager.oldOnShelfDataCb ShelfManager.onShelfDataCbWith
    simp [hlen, hcast, hmac, hupd]
  · intro item q
    refine ⟨?_, ?_, ?_, ?_⟩ <;>
      (simp only [cartEventsNew, cartEventsOld, List.foldr_cons,
        List.foldr_nil, List.append_nil]
       split_ifs with h1 h2 <;>
        simp_all [List.count_replicate, List.count_nil]) <;>
      omega

/-- Witness for C1 as amended at the concrete +1 cycle. -/
theorem C1_sign_mapping_witness :
    (ShelfManager.onShelfDataCb c1State "SHELF_A"
        [JVal.num 100, JVal.num 0, JVal.num 0, JVal.num 0] 1).2 =
      .ok (cartEventsNew [(c1Item, 1)])
    ∧ (ShelfManager.oldOnShelfDataCb c1State "SHELF_A"
        [JVal.num 100, JVal.num 0, JVal.num 0, JVal.num 0] 1).2 =
      .ok (cartEventsOld [(c1Item, 1)]) := by
  have h := C1_sign_mapping c1State "SHELF_A" c1Shelf
    [JVal.num 100, JVal.num 0, JVal.num 0, JVal.num 0] 1 [100, 0, 0, 0]
    [(c1Item, 1)] rfl rfl rfl
    (by rw [show List.map some [(100 : ℚ), 0, 0, 0] =
        [some 100, some 0, some 0, some 0] from rfl, c1_shelf_run])
  exact ⟨h.1, h.2.1⟩

/-! ### Arithmetic helper lemmas for the step-change analysis -/

theorem pymod_neg_self (A : ℚ) (hA : 0 < A) : pymod (-A) A = 0 := by
  unfold pymod
  rw [neg_div, div_self hA.ne']
  norm_num

theorem pymod_zero_left (A : ℚ) : pymod 0 A = 0 := by
  unfold pymod
  norm_num

theorem pymod_neg_half (A : ℚ) (hA : 0 < A) : pymod (-(A / 2)) A = A / 2 := by
  unfold pymod
  have h2 : (A / 2) / A = 1 / 2 := by
    rw [div_div, mul_comm, ← div_div, div_self hA.ne']
  rw [neg_div, h2]
  norm_num
  ring

theorem pyround_neg_half : pyround (-(1 / 2) : ℚ) = 0 := by
  norm_num [pyround]

theorem pyround_neg_one : pyround (-1 : ℚ) = -1 := by
  norm_num [pyround]

theorem pyround_zero : pyround (0 : ℚ) = 0 := by
  norm_num [pyround]

/-- `Slot.update` on a one-item slot with a set previous weight and a
two-element rolling buffer, written out branch by branch: the reading `u`
normalizes to `u * c`, the buffer becomes `[u * c, a]` evicting `b`, and
the rolling median is `(u * c + a) / 2`. -/
theorem update_pair (item : Item) (p a b c u : ℚ) (lp : Bool) (ln : ℕ)
    (pr : Option ℚ) (iu : ℕ) (hA0 : item.avgWeight ≠ 0) :
    Slot.update ⟨[item], some p, c, [a, b], lp, ln, pr, iu⟩ u =
      (let D := (u * c + a) / 2 - p
       if EXTRANEOUS_VALUE_LIMIT < |D| then
         (⟨[item], some p, c, [u * c, a], lp, ln, some u, iu⟩, .ok [])
       else
         let R := |pymod D item.avgWeight|
         if item.avgWeight - item.stdWeight ≤ R ∨ R ≤ item.stdWeight then
           let q := pyround (D / item.avgWeight)
           if 0 < q then
             if lp = false then
               (⟨[item], some b, c, [u * c, a], true, 0, some u, 0⟩,
                 .ok [(item, q)])
             else
               (⟨[item], some b, c, [u * c, a], lp, ln, some u, iu⟩,
                 .ok [(item, 0)])
           else if q < 0 then
             if ln = 0 then
               (⟨[item], some b, c, [u * c, a], false, q.natAbs, some u, 0⟩,
                 .ok [(item, q)])
             else
               (⟨[item], some b, c, [u * c, a], lp, ln, some u, iu⟩,
                 .ok [(item, 0)])
           else
             if ITERS_REQD_NO_UPDATE ≤ iu then
               (⟨[item], some b, c, [u * c, a], false, 0, some u, iu⟩,
                 .ok [(item, 0)])
             else
               (⟨[item], some b, c, [u * c, a], lp, ln, some u, iu + 1⟩,
                 .ok [(item, 0)])
         else
           (⟨[item], some b, c, [u * c, a], lp, ln, some u, iu⟩,
             .ok [(item, 0)])) := by
  unfold Slot.update
  dsimp only [List.getLastD, List.dropLast]
  rw [if_neg hA0, pymedian_pair]
  split_ifs <;> rfl

section StepChange

variable (item : Item) (c w u : ℚ)

/-- Cycle 1 after a settled step-change of `avg_weight` downward: the median
only moves half an item weight, so no event fires; the previous smoothed
weight stays `w` (the evicted value was `w` as well). -/
theorem c3_cycle1 (pr : Option ℚ)
    (hA : 0 < item.avgWeight) (hA5 : item.avgWeight ≤ 5000)
    (_hstd : 0 ≤ item.stdWeight) (hu : u * c = w - item.avgWeight) :
    Slot.update ⟨[item], some w, c, [w, w], false, 0, pr, 0⟩ u =
      (⟨[item], some w, c, [u * c, w], false, 0, some u, 0⟩,
        .ok [(item, 0)]) := by
  rw [update_pair item w w w c u false 0 pr 0 hA.ne']
  dsimp only
  rw [hu]
  rw [show (w - item.avgWeight + w) / 2 - w = -(item.avgWeight / 2) from by
    ring]
  rw [if_neg (by
    rw [abs_neg, abs_of_pos (half_pos hA)]
    unfold EXTRANEOUS_VALUE_LIMIT
    linarith)]
  rw [pymod_neg_half _ hA, abs_of_pos (half_pos hA)]
  rw [show -(item.avgWeight / 2) / item.avgWeight = -(1 / 2) from by
    rw [neg_div, div_div, mul_comm, ← div_div, div_self hA.ne']]
  rw [pyround_neg_half]
  by_cases hS : item.avgWeight / 2 ≤ item.stdWeight
  · rw [if_pos (Or.inr hS)]
    norm_num [ITERS_REQD_NO_UPDATE]
  · rw [if_neg (by
      push_neg
      have h' := not_le.mp hS
      exact ⟨by linarith, by linarith⟩)]

/-- Cycle 2 (the edge cycle): the median has fully moved by one item weight,
the negative latch is free, so delta `-1` is emitted and the latch set. -/
theorem c3_cycle2
    (hA : 0 < item.avgWeight) (hA5 : item.avgWeight ≤ 5000)
    (hstd : 0 ≤ item.stdWeight) (hu : u * c = w - item.avgWeight) :
    Slot.update ⟨[item], some w, c, [u * c, w], false, 0, some u, 0⟩ u =
      (⟨[item], some w, c, [u * c, u * c], false, 1, some u, 0⟩,
        .ok [(item, -1)]) := by
  rw [update_pair item w (u * c) w c u false 0 (some u) 0 hA.ne']
  dsimp only
  rw [hu]
  rw [show (w - item.avgWeight + (w - item.avgWeight)) / 2 - w =
      -item.avgWeight from by ring]
  rw [if_neg (by
    rw [abs_neg, abs_of_pos hA]
    unfold EXTRANEOUS_VALUE_LIMIT
    linarith)]
  rw [pymod_neg_self _ hA, abs_zero]
  rw [if_pos (Or.inr hstd)]
  rw [show -item.avgWeight / item.avgWeight = (-1 : ℚ) from by
    rw [neg_div, div_self hA.ne']]
  rw [pyround_neg_one]
  norm_num

/-- Cycle 3: the difference is still one item weight, but the pending
negative latch suppresses re-emission; the previous smoothed weight now
advances to the stepped-down value. -/
theorem c3_cycle3
    (hA : 0 < item.avgWeight) (hA5 : item.avgWeight ≤ 5000)
    (hstd : 0 ≤ item.stdWeight) (hu : u * c = w - item.avgWeight) :
    Slot.update ⟨[item], some w, c, [u * c, u * c], false, 1, some u, 0⟩ u =
      (⟨[item], some (u * c), c, [u * c, u * c], false, 1, some u, 0⟩,
        .ok [(item, 0)]) := by
  rw [update_pair item w (u * c) (u * c) c u false 1 (some u) 0 hA.ne']
  dsimp only
  rw [hu]
  rw [show (w - item.avgWeight + (w - item.avgWeight)) / 2 - w =
      -item.avgWeight from by ring]
  rw [if_neg (by
    rw [abs_neg, abs_of_pos hA]
    unfold EXTRANEOUS_VALUE_LIMIT
    linarith)]
  rw [pymod_neg_self _ hA, abs_zero]
  rw [if_pos (Or.inr hstd)]
  rw [show -item.avgWeight / item.avgWeight = (-1 : ℚ) from by
    rw [neg_div, div_self hA.ne']]
  rw [pyround_neg_one]
  norm_num

/-- Cycle 4: the difference is zero; the settle branch clears the negative
latch. -/
theorem c3_cycle4
    (hA : 0 < item.avgWeight) (hstd : 0 ≤ item.stdWeight) :
    Slot.update ⟨[item], some (u * c), c, [u * c, u * c], false, 1, some u, 0⟩
        u =
      (⟨[item], some (u * c), c, [u * c, u * c], false, 0, some u, 0⟩,
        .ok [(item, 0)]) := by
  rw [update_pair item (u * c) (u * c) (u * c) c u false 1 (some u) 0 hA.ne']
  dsimp only
  rw [show (u * c + u * c) / 2 - u * c = (0 : ℚ) from by ring]
  rw [if_neg (by
    rw [abs_zero]
    unfold EXTRANEOUS_VALUE_LIMIT
    norm_num)]
  rw [pymod_zero_left, abs_zero]
  rw [if_pos (Or.inr hstd)]
  rw [zero_div, pyround_zero]
  norm_num [ITERS_REQD_NO_UPDATE]

/-- Cycle 5 onward: the cleared settled state is a fixed point emitting
delta 0. -/
theorem c3_cycle5
    (hA : 0 < item.avgWeight) (hstd : 0 ≤ item.stdWeight) :
    Slot.update ⟨[item], some (u * c), c, [u * c, u * c], false, 0, some u, 0⟩
        u =
      (⟨[item], some (u * c), c, [u * c, u * c], false, 0, some u, 0⟩,
        .ok [(item, 0)]) := by
  rw [update_pair item (u * c) (u * c) (u * c) c u false 0 (some u) 0 hA.ne']
  dsimp only
  rw [show (u * c + u * c) / 2 - u * c = (0 : ℚ) from by ring]
  rw [if_neg (by
    rw [abs_zero]
    unfold EXTRANEOUS_VALUE_LIMIT
    norm_num)]
  rw [pymod_zero_left, abs_zero]
  rw [if_pos (Or.inr hstd)]
  rw [zero_div, pyround_zero]
  norm_num [ITERS_REQD_NO_UPDATE]

end StepChange

/-- C3 as amended: starting from a settled constant normalized weight `w`
(past the startup transient) on a calibrated one-item slot whose item has a
positive average weight within the 5000 g glitch limit and a nonnegative
standard deviation, a step-change of exactly `avg_weight` grams downward
held steady emits delta `-1` on exactly one cycle (the second call, when
the median settles) and delta `0` on the first call and on every later
call. -/
theorem C3_step_change_single_emit (item : Item) (c w u : ℚ)
    (pr : Option ℚ)
    (hA : 0 < item.avgWeight) (hA5 : item.avgWeight ≤ 5000)
    (hstd : 0 ≤ item.stdWeight) (hu : u * c = w - item.avgWeight) :
    (Slot.update ⟨[item], some w, c, [w, w], false, 0, pr, 0⟩ u).2 =
      .ok [(item, 0)]
    ∧ (Slot.update
        ((fun s => (Slot.update s u).1)^[1]
          ⟨[item], some w, c, [w, w], false, 0, pr, 0⟩) u).2 =
      .ok [(item, -1)]
    ∧ ∀ n, 2 ≤ n →
        (Slot.update
          ((fun s => (Slot.update s u).1)^[n]
            ⟨[item], some w, c, [w, w], false, 0, pr, 0⟩) u).2 =
        .ok [(item, 0)] := by
  set step := fun s => (Slot.update s u).1 with hstep
  set s0 : SlotState := ⟨[item], some w, c, [w, w], false, 0, pr, 0⟩ with hs0
  have h1 := c3_cycle1 item c w u pr hA hA5 hstd hu
  have h2 := c3_cycle2 item c w u hA hA5 hstd hu
  have h3 := c3_cycle3 item c w u hA hA5 hstd hu
  have h4 := c3_cycle4 item c u hA hstd
  have h5 := c3_cycle5 item c u hA hstd
  have e1 : step s0 = ⟨[item], some w, c, [u * c, w], false, 0, some u, 0⟩ :=
    congrArg Prod.fst h1
  have e2 : step (step s0) =
      ⟨[item], some w, c, [u * c, u * c], false, 1, some u, 0⟩ := by
    rw [e1]
    exact congrArg Prod.fst h2
  have e3 : step (step (step s0)) =
      ⟨[item], some (u * c), c, [u * c, u * c], false, 1, some u, 0⟩ := by
    rw [e2]
    exact congrArg Prod.fst h3
  have e4 : step (step (step (step s0))) =
      ⟨[item], some (u * c), c, [u * c, u * c], false, 0, some u, 0⟩ := by
    rw [e3]
    exact congrArg Prod.fst h4
  have i2 : step^[2] s0 = step (step s0) := by
    rw [show (2 : ℕ) = 1 + 1 from rfl, Function.iterate_succ_apply',
      Function.iterate_one]
  have i3 : step^[3] s0 = step (step^[2] s0) := by
    rw [show (3 : ℕ) = 2 + 1 from rfl, Function.iterate_succ_apply']
  have i4 : step^[4] s0 = step (step^[3] s0) := by
    rw [show (4 : ℕ) = 3 + 1 from rfl, Function.iterate_succ_apply']
  have efix : ∀ n, step^[n + 4] s0 =
      ⟨[item], some (u * c), c, [u * c, u * c], false, 0, some u, 0⟩ := by
    intro n
    induction n with
    | zero =>
      show step^[4] s0 = _
      rw [i4, i3, i2, e3]
      exact congrArg Prod.fst h4
    | succ k ih =>
      rw [show k + 1 + 4 = (k + 4) + 1 from rfl,
        Function.iterate_succ_apply', ih]
      exact congrArg Prod.fst h5
  refine ⟨by rw [hs0]; exact congrArg Prod.snd h1, ?_, ?_⟩
  · rw [Function.iterate_one, e1]
    exact congrArg Prod.snd h2
  · intro n hn
    match n, hn with
    | 2, _ =>
      rw [i2, e2]
      exact congrArg Prod.snd h3
    | 3, _ =>
      rw [i3, i2, e3]
      exact congrArg Prod.snd h4
    | (m + 4), _ =>
      rw [efix m]
      exact congrArg Prod.snd h5

/-- The step-change witness item: average weight 47 g, std 10 g. -/
def c3Item47 : Item := ⟨4, "c3w", "", 0, 0, 47, 10, "", ""⟩

/-- Witness for C3 as amended: settled at 100 g with conversion factor 1,
stepping down to 53 g emits `-1` exactly on the second call and `0` before
and long after. -/
theorem C3_step_change_single_emit_witness :
    (Slot.update ⟨[c3Item47], some 100, 1, [100, 100], false, 0, some 0, 0⟩
        53).2 = .ok [(c3Item47, 0)]
    ∧ (Slot.update
        ((fun s => (Slot.update s 53).1)^[1]
          ⟨[c3Item47], some 100, 1, [100, 100], false, 0, some 0, 0⟩) 53).2 =
      .ok [(c3Item47, -1)]
    ∧ (Slot.update
        ((fun s => (Slot.update s 53).1)^[5]
          ⟨[c3Item47], some 100, 1, [100, 100], false, 0, some 0, 0⟩) 53).2 =
      .ok [(c3Item47, 0)] := by
  have h := C3_step_change_single_emit c3Item47 1 100 53 (some 0)
    (by norm_num [c3Item47]) (by norm_num [c3Item47]) (by norm_num [c3Item47])
    (by norm_num [c3Item47])
  exact ⟨h.1, h.2.1, h.2.2 5 (by norm_num)⟩

/-- An item heavier than the 5000 g extraneous limit: a step-change of its
full average weight is always discarded as a glitch. -/
def c3BigItem : Item := ⟨3, "c3big", "", 0, 0, 20000, 10, "", ""⟩

/-- A slot settled at 30000 g holding the overweight item. -/
def c3BigSlot : SlotState :=
  ⟨[c3BigItem], some 30000, 1, [30000, 30000], false, 0, some 0, 0⟩

/-- First glitch cycle of the overweight run. -/
theorem c3big_run1 :
    Slot.update c3BigSlot 10000 =
      (⟨[c3BigItem], some 30000, 1, [10000, 30000], false, 0, some 10000, 0⟩,
        .ok []) := by
  simp [Slot.update, c3BigSlot, c3BigItem, pymedian, pysort, insertSorted,
    pymod, pyround, EXTRANEOUS_VALUE_LIMIT, ITERS_REQD_NO_UPDATE]
  norm_num

/-- Second glitch cycle of the overweight run. -/
theorem c3big_run2 :
    Slot.update
        ⟨[c3BigItem], some 30000, 1, [10000, 30000], false, 0, some 10000, 0⟩
        10000 =
      (⟨[c3BigItem], some 30000, 1, [10000, 10000], false, 0, some 10000, 0⟩,
        .ok []) := by
  simp [Slot.update, c3BigItem, pymedian, pysort, insertSorted,
    pymod, pyround, EXTRANEOUS_VALUE_LIMIT, ITERS_REQD_NO_UPDATE]
  norm_num

/-- The overweight run reaches a glitching fixed point. -/
theorem c3big_run3 :
    Slot.update
        ⟨[c3BigItem], some 30000, 1, [10000, 10000], false, 0, some 10000, 0⟩
        10000 =
      (⟨[c3BigItem], some 30000, 1, [10000, 10000], false, 0, some 10000, 0⟩,
        .ok []) := by
  simp [Slot.update, c3BigItem, pymedian, pysort, insertSorted,
    pymod, pyround, EXTRANEOUS_VALUE_LIMIT, ITERS_REQD_NO_UPDATE]
  norm_num

/-- C3 counterexample: for an item whose average weight (20000 g) exceeds
the extraneous limit, the claimed single `-1` emission never happens — the
settled step-change of exactly `avg_weight` grams downward is discarded as
a glitch on every cycle, so no cycle ever returns delta `-1`. -/
theorem C3_overweight_counterexample :
    ¬ ∃ n : ℕ,
      (Slot.update ((fun s => (Slot.update s 10000).1)^[n] c3BigSlot)
        10000).2 = .ok [(c3BigItem, -1)] := by
  rintro ⟨n, hn⟩
  set step := fun s => (Slot.update s 10000).1 with hstep
  have hstates : ∀ m : ℕ, step^[m] c3BigSlot = c3BigSlot ∨
      step^[m] c3BigSlot =
        ⟨[c3BigItem], some 30000, 1, [10000, 30000], false, 0, some 10000, 0⟩ ∨
      step^[m] c3BigSlot =
        ⟨[c3BigItem], some 30000, 1, [10000, 10000], false, 0, some 10000, 0⟩ := by
    intro m
    induction m with
    | zero => exact Or.inl rfl
    | succ k ih =>
      rw [Function.iterate_succ_apply']
      rcases ih with h | h | h <;> rw [h]
      · right; left
        exact congrArg Prod.fst c3big_run1
      · right; right
        exact congrArg Prod.fst c3big_run2
      · right; right
        exact congrArg Prod.fst c3big_run3
  rcases hstates n with h | h | h <;> rw [h] at hn
  · rw [c3big_run1] at hn
    simp at hn
  · rw [c3big_run2] at hn
    simp at hn
  · rw [c3big_run3] at hn
    simp at hn

end BnB
